import Mathlib

/-!
Verification of the knowledge store and retrieval engine
(`knowledge_manager.py`: class `KnowledgeManager`).

Text is modelled as `List Char` (named `Str`); Python string operations
(`strip`, `lower`, `in`, `count`, `split`, `join`, slicing) are translated
below.  The knowledge base dictionary is modelled as a structure whose
mapping fields are insertion-ordered association lists, matching Python
dict semantics (assignment to an existing key keeps its position, a new
key is appended).  The collaborators (aiohttp fetch + BeautifulSoup parse,
PyPDF2, python-docx, the JSON file on disk) are modelled as explicit
inputs / an explicit save counter: each operation takes the collaborator
outcome as a parameter and the number of `save_knowledge_base` calls it
performs is recorded in `EngineState.saves`.

The unused `company_info` / `services` fields of the persisted dictionary
are never read or written by any modelled operation and are omitted.
-/

abbrev Str := List Char

/-- Python `str.strip()`: drop leading and trailing whitespace. -/
def stripStr (s : Str) : Str :=
  ((s.dropWhile Char.isWhitespace).reverse.dropWhile Char.isWhitespace).reverse

/-- Python `str.lower()` (restricted to the character-wise case mapping). -/
def lowerStr (s : Str) : Str := s.map Char.toLower

/-- Python `str.startswith` on character lists. -/
def isPrefixList : Str → Str → Bool
  | [], _ => true
  | _ :: _, [] => false
  | a :: q, b :: s => a = b && isPrefixList q s

/-- Python `needle in haystack` (substring containment; `"" in s` is true). -/
def isSubstring (q : Str) : Str → Bool
  | [] => q.isEmpty
  | c :: t => isPrefixList q (c :: t) || isSubstring q t

/-- Scanning loop of Python `str.count` for a non-empty needle:
non-overlapping occurrences, scanning left to right and skipping the
length of the needle at each match (for a match at `c :: t` the
remainder after the match is `t.drop (q.length - 1)`).  Structured with
a fuel argument so that the recursion is structural; every recursive
call strictly shrinks the scanned list, so any fuel at least the
list's length gives the fuel-free meaning. -/
def countOccFuel (q : Str) : Nat → Str → Nat
  | 0, _ => 0
  | _, [] => 0
  | fuel + 1, c :: t =>
    if isPrefixList q (c :: t) then 1 + countOccFuel q fuel (t.drop (q.length - 1))
    else countOccFuel q fuel t

/-- The scan of Python `str.count`, with adequate fuel. -/
def countOccStep (q s : Str) : Nat := countOccFuel q s.length s

/-- Python `haystack.count(needle)`; `s.count("")` is `len(s) + 1`. -/
def countOcc (q s : Str) : Nat :=
  if q.isEmpty then s.length + 1 else countOccStep q s

/-- Python `str.split(sep)` for a single-character separator. -/
def splitOnC (sep : Char) : Str → List Str
  | [] => [[]]
  | c :: t =>
    if c = sep then [] :: splitOnC sep t
    else
      match splitOnC sep t with
      | [] => [[c]]
      | h :: r => (c :: h) :: r

/-- Python `sep.join(parts)`. -/
def joinWith (sep : Str) : List Str → Str
  | [] => []
  | [x] => x
  | x :: y :: t => x ++ sep ++ joinWith sep (y :: t)

/-- Decimal rendering of a page number (Python f-string interpolation). -/
def natToStr (n : Nat) : Str := (toString n).data

/-- Drop everything up to and including the first occurrence of `pat`;
`none` when `pat` does not occur. -/
def dropThrough (pat : Str) : Str → Option Str
  | [] => none
  | c :: t =>
    if isPrefixList pat (c :: t) then some ((c :: t).drop pat.length)
    else dropThrough pat t

/-- `urllib.parse.urlparse(url).netloc` for the URL shapes the engine
receives: the text between `"://"` and the next `/`, `?` or `#`; empty
when the URL has no scheme separator. -/
def netlocOf (url : Str) : Str :=
  match dropThrough ("://".data) url with
  | none => []
  | some rest => rest.takeWhile (fun c => !(c = '/' || c = '?' || c = '#'))

/-- The scheme part of an absolute URL (text before the first `:`). -/
def schemeOf (url : Str) : Str := url.takeWhile (fun c => c ≠ ':')

/-- `urllib.parse.urljoin(url, href)` for the case the code guards on,
`href.startswith('/')`: a network-relative `//host/...` reference keeps
only the base scheme, a root-relative `/...` reference keeps scheme and
network location. -/
def urljoinRootRel (url href : Str) : Str :=
  if isPrefixList ("//".data) href then schemeOf url ++ ":".data ++ href
  else schemeOf url ++ "://".data ++ netlocOf url ++ href

/-- `href = urljoin(url, href) if href.startswith('/') else href`. -/
def resolveHref (url href : Str) : Str :=
  match href with
  | '/' :: _ => urljoinRootRel url href
  | _ => href

structure Heading where
  level : Str
  text : Str
deriving DecidableEq

structure LinkEntry where
  url : Str
  text : Str
deriving DecidableEq

/-- The `content` dictionary built by `scrape_url` and stored under
`scraped_urls[url]`. -/
structure UrlContent where
  url : Str
  title : Str
  metaDescription : Str
  headings : List Heading
  paragraphs : List Str
  links : List LinkEntry
  scrapedAt : Str
deriving DecidableEq

/-- The `doc_info` dictionary stored under `uploaded_documents[filename]`
(or returned without being stored, on failure).  `pages` is present for
pdf success, `paragraphCount` for docx success; `summary` is present
(empty) exactly on success and `errorDetail` exactly on failure,
mirroring which keys each Python dict literal carries. -/
structure DocInfo where
  filename : Str
  dtype : Str
  pages : Option Nat
  paragraphCount : Option Nat
  content : Str
  processedAt : Str
  summary : Option Str
  errorDetail : Option Str
deriving DecidableEq

/-- An entry of the append-only `sources` list. -/
structure SourceEntry where
  stype : Str
  source : Str
  title : Str
deriving DecidableEq

/-- The persisted knowledge-base dictionary. -/
structure KnowledgeBase where
  scrapedUrls : List (Str × UrlContent)
  uploadedDocuments : List (Str × DocInfo)
  sources : List SourceEntry
  urlsToScrape : List Str
  lastUpdated : Str
deriving DecidableEq

/-- `create_default_knowledge_base` (the fields the engine operates on). -/
def defaultKnowledgeBase : KnowledgeBase :=
  ⟨[], [], [], [], []⟩

/-- In-memory knowledge base plus the number of `save_knowledge_base`
calls performed (the durable flushes). -/
structure EngineState where
  kb : KnowledgeBase
  saves : Nat
deriving DecidableEq

/-- `save_knowledge_base`: one more durable flush of the current state. -/
def saveKnowledgeBase (st : EngineState) : EngineState :=
  { st with saves := st.saves + 1 }

/-- Python dict assignment `d[k] = v` on an insertion-ordered
association list: replace in place when the key is present, append
otherwise. -/
def assocUpdate {α : Type} (l : List (Str × α)) (k : Str) (v : α) : List (Str × α) :=
  match l with
  | [] => [(k, v)]
  | (k0, v0) :: t => if k = k0 then (k, v) :: t else (k0, v0) :: assocUpdate t k v

/-- The keys of an association list, in order. -/
def keysOf {α : Type} (l : List (Str × α)) : List Str := l.map Prod.fst

/-- Structured result of the HTML parser collaborator (BeautifulSoup):
the raw pieces `scrape_url` reads from the soup.  `title`/
`metaDescription` are `none` when the corresponding tag/attribute is
absent; headings, paragraphs and link anchor texts are raw (unstripped)
text. -/
structure Page where
  title : Option Str
  metaDescription : Option Str
  headings : List Heading
  paragraphs : List Str
  links : List LinkEntry
deriving DecidableEq

/-- Outcome of the fetch collaborator: an HTTP response with a status and
a parsed page, or a raised exception (network error etc.). -/
inductive FetchOutcome where
  | ok (status : Nat) (page : Page)
  | failed
deriving DecidableEq

/-- The `content` dictionary `scrape_url` builds from a successfully
fetched and parsed page. -/
def scrapeRecord (url : Str) (page : Page) : UrlContent :=
  { url := url
    title := match page.title with
      | some t => stripStr t
      | none => "No title".data
    metaDescription := page.metaDescription.getD []
    headings := page.headings.map (fun h => ⟨h.level, stripStr h.text⟩)
    paragraphs :=
      (page.paragraphs.map stripStr).filter
        (fun t => !t.isEmpty && decide (20 < t.length))
    links := page.links.filterMap (fun l =>
      let href := resolveHref url l.url
      if isSubstring (netlocOf url) href then some ⟨href, stripStr l.text⟩
      else none)
    scrapedAt := [] }

/-- `KnowledgeManager.scrape_url`.  Returns the `content` dictionary (or
`none` for the `{}` returns) together with the state after the call. -/
def scrapeUrl (st : EngineState) (url : Str) (outcome : FetchOutcome) :
    Option UrlContent × EngineState :=
  match outcome with
  | .failed => (none, st)
  | .ok status page =>
    if status = 200 then
      let content := scrapeRecord url page
      (some content,
        { st with kb := { st.kb with
            scrapedUrls := assocUpdate st.kb.scrapedUrls url content
            sources := st.kb.sources ++ [⟨"url".data, url, content.title⟩] } })
    else (none, st)

instance {α β : Type} [DecidableEq α] [DecidableEq β] : DecidableEq (Except α β) :=
  fun a b =>
    match a, b with
    | .ok x, .ok y =>
      if h : x = y then isTrue (by rw [h]) else isFalse (by simp [h])
    | .ok _, .error _ => isFalse (by simp)
    | .error _, .ok _ => isFalse (by simp)
    | .error x, .error y =>
      if h : x = y then isTrue (by rw [h]) else isFalse (by simp [h])

/-- Outcome of the PyPDF2 collaborator: the library missing, the reader
raising, or a per-page list of extraction results (`Except` error = the
per-page `extract_text` exception message). -/
inductive PdfExtract where
  | unavailable
  | failed (msg : Str)
  | pages (ps : List (Except Str Str))
deriving DecidableEq

/-- Placeholder content when PyPDF2 is not installed. -/
def pdfUnavailableContent (filename : Str) : Str :=
  "PDF document \x27".data ++ filename
    ++ "\x27 uploaded but text extraction not available. Please install PyPDF2 for full functionality.".data

/-- Placeholder content when PDF processing raised. -/
def pdfFailedContent (filename msg : Str) : Str :=
  "PDF document \x27".data ++ filename
    ++ "\x27 uploaded but processing failed: ".data ++ msg

/-- Per-page text: the extracted text, or the inline bracketed error
marker (page numbers are 1-based in the marker). -/
def pdfPageText (i : Nat) (r : Except Str Str) : Str :=
  match r with
  | .ok t => t
  | .error m =>
    "[Error extracting page ".data ++ natToStr (i + 1) ++ ": ".data ++ m ++ "]".data

/-- `KnowledgeManager.process_pdf_document`. -/
def processPdfDocument (st : EngineState) (extract : PdfExtract) (filename : Str) :
    DocInfo × EngineState :=
  match extract with
  | .unavailable =>
    (⟨filename, "pdf".data, none, none, pdfUnavailableContent filename, [],
      none, some ("PyPDF2 not installed".data)⟩, st)
  | .failed msg =>
    (⟨filename, "pdf".data, none, none, pdfFailedContent filename msg, [],
      none, some msg⟩, st)
  | .pages ps =>
    let texts := ps.enum.map (fun p => pdfPageText p.1 p.2)
    let content :=
      if texts.isEmpty then "No text content extracted".data
      else joinWith ("\n".data) texts
    let d : DocInfo := ⟨filename, "pdf".data, some ps.length, none, content, [], some [], none⟩
    (d, { st with kb := { st.kb with
            uploadedDocuments := assocUpdate st.kb.uploadedDocuments filename d
            sources := st.kb.sources ++ [⟨"document".data, filename, filename⟩] } })

/-- Outcome of the python-docx collaborator: the library missing, the
constructor raising, or the raw paragraph texts of the document. -/
inductive DocxExtract where
  | unavailable
  | failed (msg : Str)
  | paras (ps : List Str)
deriving DecidableEq

/-- Placeholder content when python-docx is not installed. -/
def docxUnavailableContent (filename : Str) : Str :=
  "Word document \x27".data ++ filename
    ++ "\x27 uploaded but text extraction not available. Please install python-docx for full functionality.".data

/-- Placeholder content when DOCX processing raised. -/
def docxFailedContent (filename msg : Str) : Str :=
  "Word document \x27".data ++ filename
    ++ "\x27 uploaded but processing failed: ".data ++ msg

/-- `KnowledgeManager.process_docx_document`. -/
def processDocxDocument (st : EngineState) (extract : DocxExtract) (filename : Str) :
    DocInfo × EngineState :=
  match extract with
  | .unavailable =>
    (⟨filename, "docx".data, none, none, docxUnavailableContent filename, [],
      none, some ("python-docx not installed".data)⟩, st)
  | .failed msg =>
    (⟨filename, "docx".data, none, none, docxFailedContent filename msg, [],
      none, some msg⟩, st)
  | .paras ps =>
    let texts := (ps.map stripStr).filter (fun t => !t.isEmpty)
    let content :=
      if texts.isEmpty then "No text content found".data
      else joinWith ("\n".data) texts
    let d : DocInfo := ⟨filename, "docx".data, none, some ps.length, content, [], some [], none⟩
    (d, { st with kb := { st.kb with
            uploadedDocuments := assocUpdate st.kb.uploadedDocuments filename d
            sources := st.kb.sources ++ [⟨"document".data, filename, filename⟩] } })

/-- A result dictionary appended to `results` in `search_knowledge`; the
`content` value holds the full record of the matching kind. -/
structure SearchResult where
  rtype : Str
  source : Str
  title : Str
  relevance : Nat
  rcontent : Sum UrlContent DocInfo
deriving DecidableEq

/-- The relevance score accumulated for a scraped URL in
`search_knowledge` (`ql` is the lowercased query). -/
def urlRelevance (ql : Str) (c : UrlContent) : Nat :=
  (if isSubstring ql (lowerStr c.title) then 3 else 0)
  + (if isSubstring ql (lowerStr c.metaDescription) then 2 else 0)
  + 2 * (c.headings.filter (fun h => isSubstring ql (lowerStr h.text))).length
  + (c.paragraphs.filter (fun p => isSubstring ql (lowerStr p))).length

/-- The relevance score accumulated for an uploaded document in
`search_knowledge` (`ql` is the lowercased query). -/
def docRelevance (ql : Str) (filename : Str) (d : DocInfo) : Nat :=
  (if isSubstring ql (lowerStr filename) then 2 else 0)
  + (if isSubstring ql (lowerStr d.content) then countOcc ql (lowerStr d.content)
     else 0)

/-- The `results` list of `search_knowledge` before sorting and
truncation: positively scoring URL records (in key order), then
positively scoring document records (in key order). -/
def searchResults (kb : KnowledgeBase) (query : Str) : List SearchResult :=
  let ql := lowerStr query
  kb.scrapedUrls.filterMap (fun p =>
    let rel := urlRelevance ql p.2
    if 0 < rel then some ⟨"url".data, p.1, p.2.title, rel, Sum.inl p.2⟩ else none)
  ++ kb.uploadedDocuments.filterMap (fun p =>
    let rel := docRelevance ql p.1 p.2
    if 0 < rel then some ⟨"document".data, p.1, p.1, rel, Sum.inr p.2⟩ else none)

/-- One insertion step of the stable descending sort: `x` goes in front
of the first element whose relevance does not exceed it. -/
def insertDesc (x : SearchResult) : List SearchResult → List SearchResult
  | [] => [x]
  | y :: t => if y.relevance ≤ x.relevance then x :: y :: t else y :: insertDesc x t

/-- `results.sort(key=lambda x: x["relevance"], reverse=True)`: the
stable descending sort (stable sorting is extensionally unique, so this
insertion sort computes exactly what Python's stable sort does). -/
def sortByRelevance : List SearchResult → List SearchResult
  | [] => []
  | x :: t => insertDesc x (sortByRelevance t)

/-- Python list slicing `l[:n]` with an arbitrary (possibly negative)
bound. -/
def pySlice {α : Type} (n : Int) (l : List α) : List α :=
  if 0 ≤ n then l.take n.toNat else l.take (l.length - (-n).toNat)

/-- `KnowledgeManager.search_knowledge`. -/
def searchKnowledge (kb : KnowledgeBase) (query : Str) (maxResults : Int) :
    List SearchResult :=
  pySlice maxResults (sortByRelevance (searchResults kb query))

/-- `search_knowledge` at its default `max_results=5`. -/
def searchKnowledgeDefault (kb : KnowledgeBase) (query : Str) : List SearchResult :=
  searchKnowledge kb query 5

/-- The fixed string returned when the search finds nothing. -/
def noKnowledgeMessage : Str :=
  "No specific information found in knowledge base.".data

/-- The `relevant_paragraphs` list of `get_context_for_query` for a URL
result (before the `[:3]` truncation). -/
def relParagraphs (query : Str) (c : UrlContent) : List Str :=
  c.paragraphs.filter (fun p => isSubstring (lowerStr query) (lowerStr p))

/-- The `relevant_sentences` list of `get_context_for_query` for a
document result (before the `[:5]` truncation): sentences are the
`content.split('.')` pieces, filtered on containing the query
case-insensitively, then stripped. -/
def relSentences (query : Str) (content : Str) : List Str :=
  ((splitOnC '.' content).filter
    (fun s => isSubstring (lowerStr query) (lowerStr s))).map stripStr

/-- The `context_parts` lines contributed by one URL result. -/
def urlResultParts (query source : Str) (c : UrlContent) : List Str :=
  (["\nFrom ".data ++ source ++ ":".data, "Title: ".data ++ c.title]
    ++ (if c.metaDescription.isEmpty then []
        else ["Description: ".data ++ c.metaDescription]))
  ++ (if (relParagraphs query c).isEmpty then []
      else "Relevant content:".data :: (relParagraphs query c).take 3)

/-- The `context_parts` lines contributed by one document result. -/
def docResultParts (query source : Str) (d : DocInfo) : List Str :=
  ["\nFrom document ".data ++ source ++ ":".data]
  ++ (if (relSentences query d.content).isEmpty then []
      else "Relevant content:".data :: (relSentences query d.content).take 5)

/-- The lines contributed by one search result, dispatching on the
record kind (in the code the `type` tag and the stored record always
agree, both being set at the single construction site of each result
dictionary). -/
def resultParts (query : Str) (r : SearchResult) : List Str :=
  match r.rcontent with
  | Sum.inl c => urlResultParts query r.source c
  | Sum.inr d => docResultParts query r.source d

/-- `KnowledgeManager.get_context_for_query`. -/
def getContextForQuery (kb : KnowledgeBase) (query : Str) : Str :=
  let found := searchKnowledgeDefault kb query
  if found.isEmpty then noKnowledgeMessage
  else
    joinWith ("\n".data)
      ("Relevant information from STAFFVIRTUAL knowledge base:".data
        :: found.flatMap (resultParts query))

/-- `KnowledgeManager.add_url_to_scrape_list`. -/
def addUrlToScrapeList (st : EngineState) (url : Str) : EngineState :=
  if url ∈ st.kb.urlsToScrape then st
  else
    saveKnowledgeBase
      { st with kb := { st.kb with urlsToScrape := st.kb.urlsToScrape ++ [url] } }

/-- The summary dictionary of `get_knowledge_summary`. -/
structure KnowledgeSummary where
  scrapedUrls : Nat
  uploadedDocuments : Nat
  totalSources : Nat
  lastUpdated : Str
deriving DecidableEq

/-- `KnowledgeManager.get_knowledge_summary`. -/
def getKnowledgeSummary (kb : KnowledgeBase) : KnowledgeSummary :=
  ⟨kb.scrapedUrls.length, kb.uploadedDocuments.length, kb.sources.length,
    kb.lastUpdated⟩

/-- The spec's URL scoring formula, written from the spec's words:
`+3` if the query appears (case-insensitively) in the title, `+2` if in
the meta description, `+2` per matching heading, `+1` per matching
paragraph. -/
def urlScoreSpec (query : Str) (c : UrlContent) : Nat :=
  (if isSubstring (lowerStr query) (lowerStr c.title) then 3 else 0)
  + (if isSubstring (lowerStr query) (lowerStr c.metaDescription) then 2 else 0)
  + 2 * (c.headings.filter
      (fun h => isSubstring (lowerStr query) (lowerStr h.text))).length
  + (c.paragraphs.filter
      (fun p => isSubstring (lowerStr query) (lowerStr p))).length

/-- The spec's document scoring formula, written from the spec's words:
`+2` if the query appears (case-insensitively) in the filename, plus the
occurrence count of the query within the content. -/
def docScoreSpec (query filename : Str) (d : DocInfo) : Nat :=
  (if isSubstring (lowerStr query) (lowerStr filename) then 2 else 0)
  + countOcc (lowerStr query) (lowerStr d.content)

/-- Modelled from the spec: the registrable domain of a host name, for
hosts whose public suffix is a single label (such as `.com`): the last
two dot-separated labels.  The spec appeals to "registrable domain"
without defining it; this is the standard eTLD+1 reading used to state
the domain-filter claim. -/
def registrableDomain (host : Str) : Str :=
  let labels := splitOnC '.' host
  joinWith (".".data) (labels.drop (labels.length - 2))

/-! Concrete sample inputs used by the closed theorems below. -/

/-- The engine state right after construction with no persisted file. -/
def emptyEngineState : EngineState := ⟨defaultKnowledgeBase, 0⟩

/-- A sample source URL. -/
def exampleUrl : Str := "https://example.com/".data

/-- A minimal successfully parsed page. -/
def samplePage : Page := ⟨some ("T".data), none, [], [], []⟩

/-- A parsed page whose `<title>` tag is absent. -/
def pageNoTitle : Page := ⟨none, none, [], [], []⟩

/-- A parsed page with a single paragraph of exactly 20 characters
(no surrounding whitespace). -/
def pagePara20 : Page := ⟨some ("T".data), none, [], ["aaaaaaaaaaaaaaaaaaaa".data], []⟩

/-- A parsed page with one link to a host of a different registrable
domain that merely contains `example.com` as a substring. -/
def pageForeignLink : Page :=
  ⟨some ("T".data), none, [], [], [⟨"https://notexample.com/".data, "link".data⟩]⟩

/-- A sample stored document record. -/
def sampleDocA : DocInfo :=
  ⟨"x.pdf".data, "pdf".data, some 1, none, "alpha beta".data, [], some [], none⟩

/-- A second sample stored document record (two query occurrences). -/
def sampleDocB : DocInfo :=
  ⟨"y.pdf".data, "pdf".data, some 1, none, "alpha gamma alpha".data, [], some [], none⟩

/-- A knowledge base holding the two sample documents. -/
def kbTwoDocs : KnowledgeBase :=
  { defaultKnowledgeBase with
      uploadedDocuments := [("x.pdf".data, sampleDocA), ("y.pdf".data, sampleDocB)] }

/-! Helper lemmas shared by the claim theorems. -/

theorem isSubstring_nil (s : Str) : isSubstring [] s = true := by
  cases s <;> simp [isSubstring, isPrefixList, List.isEmpty]

theorem countOccFuel_eq_zero (q : Str) :
    ∀ (fuel : Nat) (s : Str), isSubstring q s = false → countOccFuel q fuel s = 0 := by
  intro fuel
  induction fuel with
  | zero => intro s _; cases s <;> rfl
  | succ n ih =>
    intro s h
    cases s with
    | nil => rfl
    | cons c t =>
      rw [isSubstring] at h
      simp only [Bool.or_eq_false_iff] at h
      rw [countOccFuel, if_neg (by simp [h.1])]
      exact ih t h.2

theorem countOcc_eq_zero (q s : Str) (h : isSubstring q s = false) : countOcc q s = 0 := by
  have hq : q.isEmpty = false := by
    cases q with
    | nil => rw [isSubstring_nil] at h; cases h
    | cons a b => rfl
  rw [countOcc, if_neg (by simp [hq]), countOccStep]
  exact countOccFuel_eq_zero q s.length s h

theorem docRelevance_eq_spec (query filename : Str) (d : DocInfo) :
    docRelevance (lowerStr query) filename d = docScoreSpec query filename d := by
  rw [docRelevance, docScoreSpec]
  by_cases h : isSubstring (lowerStr query) (lowerStr d.content) = true
  · rw [if_pos h]
  · rw [if_neg h, countOcc_eq_zero _ _
      (by revert h; cases hs : isSubstring (lowerStr query) (lowerStr d.content) <;> simp)]

theorem urlRelevance_eq_spec (query : Str) (c : UrlContent) :
    urlRelevance (lowerStr query) c = urlScoreSpec query c := rfl

theorem mem_insertDesc (x a : SearchResult) (l : List SearchResult) :
    a ∈ insertDesc x l ↔ a = x ∨ a ∈ l := by
  induction l with
  | nil => simp [insertDesc]
  | cons y t ih =>
    rw [insertDesc]
    by_cases h : y.relevance ≤ x.relevance
    · simp [h]
    · simp only [if_neg h, List.mem_cons, ih]
      tauto

theorem length_insertDesc (x : SearchResult) (l : List SearchResult) :
    (insertDesc x l).length = l.length + 1 := by
  induction l with
  | nil => rfl
  | cons y t ih =>
    rw [insertDesc]
    by_cases h : y.relevance ≤ x.relevance
    · simp [h]
    · simp [h, ih]

theorem mem_sortByRelevance (a : SearchResult) (l : List SearchResult) :
    a ∈ sortByRelevance l ↔ a ∈ l := by
  induction l with
  | nil => simp [sortByRelevance]
  | cons x t ih => rw [sortByRelevance, mem_insertDesc]; simp [ih]

theorem length_sortByRelevance (l : List SearchResult) :
    (sortByRelevance l).length = l.length := by
  induction l with
  | nil => rfl
  | cons x t ih =>
    rw [sortByRelevance, length_insertDesc, ih]
    rfl

theorem mem_of_mem_pySlice {α : Type} (n : Int) (l : List α) (a : α)
    (h : a ∈ pySlice n l) : a ∈ l := by
  rw [pySlice] at h
  split at h <;> exact List.mem_of_mem_take h

theorem keysOf_assocUpdate_mem {α : Type} (l : List (Str × α)) (k : Str) (v : α) :
    k ∈ keysOf (assocUpdate l k v) := by
  induction l with
  | nil => exact List.mem_cons_self _ _
  | cons p t ih =>
    obtain ⟨k0, v0⟩ := p
    simp only [assocUpdate]
    by_cases h : k = k0
    · rw [if_pos h]
      exact List.mem_cons_self _ _
    · rw [if_neg h]
      exact List.mem_cons_of_mem _ ih

theorem length_assocUpdate {α : Type} (l : List (Str × α)) (k : Str) (v : α) :
    (assocUpdate l k v).length = if k ∈ keysOf l then l.length else l.length + 1 := by
  induction l with
  | nil =>
    rw [if_neg (by intro h; cases h)]
    rfl
  | cons p t ih =>
    obtain ⟨k0, v0⟩ := p
    simp only [assocUpdate]
    by_cases h : k = k0
    · rw [if_pos h,
        if_pos (show k ∈ keysOf ((k0, v0) :: t) from List.mem_cons.mpr (Or.inl h))]
      rfl
    · rw [if_neg h]
      by_cases h2 : k ∈ keysOf t
      · rw [if_pos (show k ∈ keysOf ((k0, v0) :: t) from List.mem_cons.mpr (Or.inr h2))]
        show (assocUpdate t k v).length + 1 = t.length + 1
        rw [ih, if_pos h2]
      · rw [if_neg (show k ∉ keysOf ((k0, v0) :: t) from fun hc =>
          (List.mem_cons.mp hc).elim h h2)]
        show (assocUpdate t k v).length + 1 = t.length + 1 + 1
        rw [ih, if_neg h2]

theorem length_filterMap_of_always_some {α β : Type} (f : α → Option β) (l : List α)
    (h : ∀ a ∈ l, (f a).isSome) : (l.filterMap f).length = l.length := by
  induction l with
  | nil => rfl
  | cons a t ih =>
    rw [List.filterMap_cons]
    cases hf : f a with
    | none =>
      have := h a (List.mem_cons_self _ _)
      rw [hf] at this
      cases this
    | some b =>
      simp only [List.length_cons]
      rw [ih (fun x hx => h x (List.mem_cons_of_mem _ hx))]

theorem lowerStr_nil : lowerStr [] = [] := rfl

theorem scrapeUrl_ok_200 (st : EngineState) (url : Str) (page : Page) :
    scrapeUrl st url (FetchOutcome.ok 200 page)
      = (some (scrapeRecord url page),
         { st with kb := { st.kb with
             scrapedUrls := assocUpdate st.kb.scrapedUrls url (scrapeRecord url page)
             sources := st.kb.sources
               ++ [⟨"url".data, url, (scrapeRecord url page).title⟩] } }) := rfl

/-- C1: `search_knowledge` collects exactly the records with positive
relevance score, scored case-insensitively and additively per the spec's
formulas (`urlScoreSpec`, `docScoreSpec`); zero-score records never
appear, and the returned (sorted, truncated) list only contains such
positively scored records. -/
theorem search_returns_exactly_positive_scores
    (kb : KnowledgeBase) (query : Str) (r : SearchResult) :
    (r ∈ searchResults kb query ↔
      (∃ p ∈ kb.scrapedUrls, 0 < urlScoreSpec query p.2 ∧
          r = ⟨"url".data, p.1, p.2.title, urlScoreSpec query p.2, Sum.inl p.2⟩)
        ∨ (∃ p ∈ kb.uploadedDocuments, 0 < docScoreSpec query p.1 p.2 ∧
          r = ⟨"document".data, p.1, p.1, docScoreSpec query p.1 p.2, Sum.inr p.2⟩))
    ∧ ∀ n : Int, r ∈ searchKnowledge kb query n → r ∈ searchResults kb query := by
  constructor
  · simp only [searchResults, List.mem_append, List.mem_filterMap,
      Option.ite_none_right_eq_some, Option.some.injEq,
      urlRelevance_eq_spec, docRelevance_eq_spec]
    constructor
    · rintro (⟨p, hp, hrel, hr⟩ | ⟨p, hp, hrel, hr⟩)
      · exact Or.inl ⟨p, hp, hrel, hr.symm⟩
      · exact Or.inr ⟨p, hp, hrel, hr.symm⟩
    · rintro (⟨p, hp, hrel, hr⟩ | ⟨p, hp, hrel, hr⟩)
      · exact Or.inl ⟨p, hp, hrel, hr.symm⟩
      · exact Or.inr ⟨p, hp, hrel, hr.symm⟩
  · intro n h
    rw [searchKnowledge] at h
    exact (mem_sortByRelevance _ _).mp (mem_of_mem_pySlice _ _ _ h)

/-- Witness for C1: the second sample document scores 2 (two occurrences
of "alpha" in its content) and is a member of the search's result list
for the query "alpha". -/
theorem search_returns_exactly_positive_scores_witness :
    (⟨"document".data, "y.pdf".data, "y.pdf".data, 2, Sum.inr sampleDocB⟩ : SearchResult)
      ∈ searchResults kbTwoDocs ("alpha".data) :=
  (search_returns_exactly_positive_scores kbTwoDocs ("alpha".data) _).2 5 (by decide)

/-- C2 (counterexample): with a negative `max_results`, Python slicing
`results[:max_results]` drops elements from the end instead of returning
nothing: on a corpus with two matching documents, `max_results = -1`
returns one result, violating `len(Search(q, n)) ≤ max(n, 0)`. -/
theorem search_maxResults_negative_cex :
    ¬ ((searchKnowledge kbTwoDocs ("alpha".data) (-1)).length
        ≤ (max (-1 : Int) 0).toNat) := by decide

/-- C2 (amended): for `n ≥ 0` the result length is at most `n` and
`n = 0` yields no results; for `n < 0` the slice keeps all but the last
`|n|` of the ranked results (Python negative-slice semantics), rather
than yielding 0 results; the default `max_results` is 5. -/
theorem search_maxResults_truncation (kb : KnowledgeBase) (query : Str) (n : Int) :
    (0 ≤ n → (searchKnowledge kb query n).length ≤ n.toNat)
    ∧ searchKnowledge kb query 0 = []
    ∧ (n < 0 → (searchKnowledge kb query n).length
        = (searchResults kb query).length - (-n).toNat)
    ∧ searchKnowledgeDefault kb query = searchKnowledge kb query 5 := by
  refine ⟨fun hn => ?_, ?_, fun hn => ?_, rfl⟩
  · rw [searchKnowledge, pySlice, if_pos hn]
    exact List.length_take_le _ _
  · rw [searchKnowledge, pySlice, if_pos (by norm_num)]
    rfl
  · rw [searchKnowledge, pySlice, if_neg (by omega), List.length_take,
      length_sortByRelevance]
    exact Nat.min_eq_left (Nat.sub_le _ _)

/-- Witness for the amended C2 at a concrete corpus and bounds. -/
theorem search_maxResults_truncation_witness :
    (searchKnowledge kbTwoDocs ("alpha".data) 1).length ≤ (1 : Int).toNat
    ∧ (searchKnowledge kbTwoDocs ("alpha".data) (-1)).length
        = (searchResults kbTwoDocs ("alpha".data)).length - ((-(-1) : Int)).toNat :=
  ⟨(search_maxResults_truncation kbTwoDocs ("alpha".data) 1).1 (by norm_num),
   (search_maxResults_truncation kbTwoDocs ("alpha".data) (-1)).2.2.1 (by norm_num)⟩

/-- C9: the empty query scores every stored record positively (the empty
string is a substring of every title and filename), so the search over
the empty query keeps every record and returns them up to the cap; the
empty query is not rejected or treated specially. -/
theorem empty_query_returns_all (kb : KnowledgeBase) (n : Int) (hn : 0 ≤ n) :
    (searchResults kb []).length
      = kb.scrapedUrls.length + kb.uploadedDocuments.length
    ∧ (searchKnowledge kb [] n).length
      = min n.toNat (kb.scrapedUrls.length + kb.uploadedDocuments.length) := by
  have hall : (searchResults kb []).length
      = kb.scrapedUrls.length + kb.uploadedDocuments.length := by
    simp only [searchResults]
    rw [List.length_append]
    congr 1
    · apply length_filterMap_of_always_some
      intro p _
      have hpos : 0 < urlRelevance (lowerStr []) p.2 := by
        simp only [urlRelevance, lowerStr_nil]
        rw [if_pos (isSubstring_nil _)]
        omega
      rw [if_pos hpos]
      rfl
    · apply length_filterMap_of_always_some
      intro p _
      have hpos : 0 < docRelevance (lowerStr []) p.1 p.2 := by
        simp only [docRelevance, lowerStr_nil]
        rw [if_pos (isSubstring_nil _)]
        omega
      rw [if_pos hpos]
      rfl
  refine ⟨hall, ?_⟩
  rw [searchKnowledge, pySlice, if_pos hn, List.length_take, length_sortByRelevance,
    hall]

/-- Witness for C9 on the two-document corpus with cap 3. -/
theorem empty_query_returns_all_witness :
    (searchResults kbTwoDocs []).length
      = kbTwoDocs.scrapedUrls.length + kbTwoDocs.uploadedDocuments.length
    ∧ (searchKnowledge kbTwoDocs [] 3).length
      = min (3 : Int).toNat
          (kbTwoDocs.scrapedUrls.length + kbTwoDocs.uploadedDocuments.length) :=
  empty_query_returns_all kbTwoDocs 3 (by norm_num)

/-- C3 (counterexample): ingesting `brief.pdf` with the PDF extractor
unavailable returns a placeholder record but stores nothing: afterwards
no record for that filename exists in `uploaded_documents` (the failure
branches return without writing to the repository). -/
theorem document_ingestion_failure_not_stored_cex :
    ¬ ("brief.pdf".data ∈ keysOf
        (processPdfDocument emptyEngineState PdfExtract.unavailable
          ("brief.pdf".data)).2.kb.uploadedDocuments) := by decide

/-- C3 (amended): every document ingestion attempt returns a record for
the given filename, and on failure (extractor unavailable or throwing)
the returned record has non-empty placeholder content and `errorDetail`
set — but the repository is left unchanged; only successful extraction
stores the record under the filename. -/
theorem document_ingestion_always_returns_record
    (st : EngineState) (filename msg : Str) (ps : List (Except Str Str))
    (qs : List Str) :
    ((processPdfDocument st PdfExtract.unavailable filename).1.filename = filename
      ∧ (processPdfDocument st PdfExtract.unavailable filename).1.content ≠ []
      ∧ (processPdfDocument st PdfExtract.unavailable filename).1.errorDetail.isSome
      ∧ (processPdfDocument st PdfExtract.unavailable filename).2 = st)
    ∧ ((processPdfDocument st (PdfExtract.failed msg) filename).1.filename = filename
      ∧ (processPdfDocument st (PdfExtract.failed msg) filename).1.content ≠ []
      ∧ (processPdfDocument st (PdfExtract.failed msg) filename).1.errorDetail.isSome
      ∧ (processPdfDocument st (PdfExtract.failed msg) filename).2 = st)
    ∧ ((processPdfDocument st (PdfExtract.pages ps) filename).1.filename = filename
      ∧ filename ∈ keysOf
          (processPdfDocument st (PdfExtract.pages ps) filename).2.kb.uploadedDocuments
      ∧ (processPdfDocument st (PdfExtract.pages ps) filename).2.kb.uploadedDocuments
          = assocUpdate st.kb.uploadedDocuments filename
              (processPdfDocument st (PdfExtract.pages ps) filename).1)
    ∧ ((processDocxDocument st DocxExtract.unavailable filename).1.filename = filename
      ∧ (processDocxDocument st DocxExtract.unavailable filename).1.content ≠ []
      ∧ (processDocxDocument st DocxExtract.unavailable filename).1.errorDetail.isSome
      ∧ (processDocxDocument st DocxExtract.unavailable filename).2 = st)
    ∧ ((processDocxDocument st (DocxExtract.failed msg) filename).1.filename = filename
      ∧ (processDocxDocument st (DocxExtract.failed msg) filename).1.content ≠ []
      ∧ (processDocxDocument st (DocxExtract.failed msg) filename).1.errorDetail.isSome
      ∧ (processDocxDocument st (DocxExtract.failed msg) filename).2 = st)
    ∧ ((processDocxDocument st (DocxExtract.paras qs) filename).1.filename = filename
      ∧ filename ∈ keysOf
          (processDocxDocument st (DocxExtract.paras qs) filename).2.kb.uploadedDocuments
      ∧ (processDocxDocument st (DocxExtract.paras qs) filename).2.kb.uploadedDocuments
          = assocUpdate st.kb.uploadedDocuments filename
              (processDocxDocument st (DocxExtract.paras qs) filename).1) := by
  refine ⟨⟨rfl, ?_, rfl, rfl⟩, ⟨rfl, ?_, rfl, rfl⟩, ⟨rfl, ?_, rfl⟩,
    ⟨rfl, ?_, rfl, rfl⟩, ⟨rfl, ?_, rfl, rfl⟩, ⟨rfl, ?_, rfl⟩⟩
  · exact List.cons_ne_nil _ _
  · exact List.cons_ne_nil _ _
  · exact keysOf_assocUpdate_mem _ _ _
  · exact List.cons_ne_nil _ _
  · exact List.cons_ne_nil _ _
  · exact keysOf_assocUpdate_mem _ _ _

/-- Witness for the amended C3 at the empty state and concrete
filenames. -/
theorem document_ingestion_always_returns_record_witness :
    (processPdfDocument emptyEngineState PdfExtract.unavailable
        ("brief.pdf".data)).1.content ≠ []
    ∧ ("a.pdf".data ∈ keysOf
        (processPdfDocument emptyEngineState (PdfExtract.pages [Except.ok ("t".data)])
          ("a.pdf".data)).2.kb.uploadedDocuments) :=
  ⟨(document_ingestion_always_returns_record emptyEngineState ("brief.pdf".data)
      [] [] []).1.2.1,
   (document_ingestion_always_returns_record emptyEngineState ("a.pdf".data)
      [] [Except.ok ("t".data)] []).2.2.1.2.1⟩

/-- C4 (counterexample): a fetched page with a missing `<title>` is not
a failure: the scrape stores a record (titled "No title") and returns
it, so "missing title implies no repository mutation" is false. -/
theorem scrape_missing_title_still_ingests_cex :
    (scrapeUrl emptyEngineState exampleUrl (FetchOutcome.ok 200 pageNoTitle)).2
      ≠ emptyEngineState
    ∧ (scrapeUrl emptyEngineState exampleUrl (FetchOutcome.ok 200 pageNoTitle)).1
      ≠ none
    ∧ ((scrapeUrl emptyEngineState exampleUrl (FetchOutcome.ok 200 pageNoTitle)).1.map
        UrlContent.title) = some ("No title".data) := by decide

/-- C4 (amended): on a non-success HTTP status or a network exception,
`scrape_url` returns an empty result and performs no repository
mutation; a missing title alone is not a failure — the page is ingested
with the placeholder title "No title". -/
theorem scrape_failure_no_mutation
    (st : EngineState) (url : Str) (status : Nat) (page : Page) :
    scrapeUrl st url FetchOutcome.failed = (none, st)
    ∧ (status ≠ 200 → scrapeUrl st url (FetchOutcome.ok status page) = (none, st))
    ∧ (page.title = none →
        ((scrapeUrl st url (FetchOutcome.ok 200 page)).1.map UrlContent.title)
          = some ("No title".data)
        ∧ (scrapeUrl st url (FetchOutcome.ok 200 page)).2.kb.sources.length
          = st.kb.sources.length + 1) := by
  refine ⟨rfl, fun hs => ?_, fun ht => ?_⟩
  · rw [scrapeUrl, if_neg hs]
  · rw [scrapeUrl_ok_200]
    constructor
    · show some (scrapeRecord url page).title = _
      rw [scrapeRecord]
      simp only [ht]
    · simp [List.length_append]

/-- Witness for the amended C4 at concrete failing and title-less
inputs. -/
theorem scrape_failure_no_mutation_witness :
    scrapeUrl emptyEngineState exampleUrl (FetchOutcome.ok 404 samplePage)
      = (none, emptyEngineState)
    ∧ ((scrapeUrl emptyEngineState exampleUrl (FetchOutcome.ok 200 pageNoTitle)).1.map
        UrlContent.title) = some ("No title".data) :=
  ⟨(scrape_failure_no_mutation emptyEngineState exampleUrl 404 samplePage).2.1
      (by norm_num),
   ((scrape_failure_no_mutation emptyEngineState exampleUrl 200 pageNoTitle).2.2
      (by decide)).1⟩

/-- C5 (counterexample): the link filter is a substring test on the
source host, not a registrable-domain comparison: from
`https://example.com/` the link `https://notexample.com/` is stored even
though its registrable domain differs from the source's. -/
theorem link_filter_foreign_domain_cex :
    ((scrapeUrl emptyEngineState exampleUrl (FetchOutcome.ok 200 pageForeignLink)).1.map
        (fun c => c.links.map LinkEntry.url))
      = some ["https://notexample.com/".data]
    ∧ registrableDomain (netlocOf ("https://notexample.com/".data))
      ≠ registrableDomain (netlocOf exampleUrl) := by decide

/-- C5 (amended): every link stored by a successful scrape has the
source URL's network location as a substring of its (possibly resolved)
URL, and arises from a raw page link by resolving root-relative targets
against the source URL; targets of a different registrable domain pass
the filter whenever they contain the source host as a substring. -/
theorem link_filter_substring_domain
    (st : EngineState) (url : Str) (status : Nat) (page : Page)
    (c : UrlContent) (l : LinkEntry)
    (hc : (scrapeUrl st url (FetchOutcome.ok status page)).1 = some c)
    (hl : l ∈ c.links) :
    isSubstring (netlocOf url) l.url = true
    ∧ ∃ raw ∈ page.links,
        l.url = resolveHref url raw.url ∧ l.text = stripStr raw.text := by
  by_cases h200 : status = 200
  · subst h200
    rw [scrapeUrl_ok_200] at hc
    simp only [Option.some.injEq] at hc
    subst hc
    rw [scrapeRecord] at hl
    simp only [List.mem_filterMap, Option.ite_none_right_eq_some,
      Option.some.injEq] at hl
    obtain ⟨raw, hraw, hsub, heq⟩ := hl
    refine ⟨?_, raw, hraw, ?_, ?_⟩
    · rw [← heq]
      exact hsub
    · rw [← heq]
    · rw [← heq]
  · rw [scrapeUrl, if_neg h200] at hc
    cases hc

/-- Witness for the amended C5: the stored foreign-domain link on the
concrete page, shown to contain the source host as a substring. -/
theorem link_filter_substring_domain_witness :
    isSubstring (netlocOf exampleUrl) ("https://notexample.com/".data) = true :=
  (link_filter_substring_domain emptyEngineState exampleUrl 200 pageForeignLink
    (scrapeRecord exampleUrl pageForeignLink)
    ⟨"https://notexample.com/".data, "link".data⟩ (by decide) (by decide)).1

/-- C6 (counterexample): a paragraph of exactly 20 trimmed characters is
discarded (the code keeps only strictly more than 20), contradicting
"every paragraph of trimmed length ≥ 20 is retained". -/
theorem paragraph_length_twenty_excluded_cex :
    (stripStr ("aaaaaaaaaaaaaaaaaaaa".data)).length = 20
    ∧ ((scrapeUrl emptyEngineState exampleUrl (FetchOutcome.ok 200 pagePara20)).1.map
        UrlContent.paragraphs) = some [] := by decide

/-- C6 (amended): the stored paragraphs are exactly the trimmed source
paragraphs of length strictly greater than 20; in particular nothing of
trimmed length below 21 (so nothing below 20 either) ever appears. -/
theorem paragraph_filter_strictly_greater_twenty
    (st : EngineState) (url : Str) (page : Page) (c : UrlContent) (p : Str)
    (hc : (scrapeUrl st url (FetchOutcome.ok 200 page)).1 = some c) :
    (p ∈ c.paragraphs ↔
      (∃ raw ∈ page.paragraphs, p = stripStr raw) ∧ 20 < p.length)
    ∧ ∀ q ∈ c.paragraphs, 20 < q.length := by
  rw [scrapeUrl_ok_200] at hc
  simp only [Option.some.injEq] at hc
  subst hc
  have hmem : ∀ x : Str,
      x ∈ (scrapeRecord url page).paragraphs ↔
        (∃ raw ∈ page.paragraphs, x = stripStr raw) ∧ 20 < x.length := by
    intro x
    rw [scrapeRecord]
    simp only [List.mem_filter, List.mem_map, Bool.and_eq_true,
      decide_eq_true_iff]
    constructor
    · rintro ⟨⟨raw, hraw, hx⟩, _, hlen⟩
      exact ⟨⟨raw, hraw, hx.symm⟩, hlen⟩
    · rintro ⟨⟨raw, hraw, hx⟩, hlen⟩
      refine ⟨⟨raw, hraw, hx.symm⟩, ?_, hlen⟩
      cases x with
      | nil => cases hlen
      | cons a t => rfl
  exact ⟨hmem p, fun q hq => ((hmem q).mp hq).2⟩

/-- Witness for the amended C6: the spec-example page about
`example.com/about` keeps its long strategy paragraph and that paragraph
has trimmed length above 20. -/
theorem paragraph_filter_strictly_greater_twenty_witness :
    ("We help clients grow their business online through strategy.".data
        ∈ (scrapeRecord exampleUrl
            ⟨some ("About Us".data), none, [],
              ["We help clients grow their business online through strategy.".data,
               "Short.".data], []⟩).paragraphs)
    ∧ ∀ q ∈ (scrapeRecord exampleUrl
          ⟨some ("About Us".data), none, [],
            ["We help clients grow their business online through strategy.".data,
             "Short.".data], []⟩).paragraphs, 20 < q.length := by
  have h := paragraph_filter_strictly_greater_twenty emptyEngineState exampleUrl
    ⟨some ("About Us".data), none, [],
      ["We help clients grow their business online through strategy.".data,
       "Short.".data], []⟩
    (scrapeRecord exampleUrl
      ⟨some ("About Us".data), none, [],
        ["We help clients grow their business online through strategy.".data,
         "Short.".data], []⟩)
    ("We help clients grow their business online through strategy.".data)
    rfl
  exact ⟨h.1.mpr (by decide), h.2⟩

/-- C7 (counterexample): a fully successful URL ingestion from the fresh
state performs no durable save and leaves `last_updated` untouched, so
"every successful mutating operation updates lastUpdated and persists
before returning" fails on the code. -/
theorem ingestion_no_persist_cex :
    (scrapeUrl emptyEngineState exampleUrl (FetchOutcome.ok 200 samplePage)).1 ≠ none
    ∧ (scrapeUrl emptyEngineState exampleUrl (FetchOutcome.ok 200 samplePage)).2.kb
        ≠ emptyEngineState.kb
    ∧ (scrapeUrl emptyEngineState exampleUrl (FetchOutcome.ok 200 samplePage)).2.saves
        = 0
    ∧ (scrapeUrl emptyEngineState exampleUrl
        (FetchOutcome.ok 200 samplePage)).2.kb.lastUpdated
        = emptyEngineState.kb.lastUpdated := by decide

/-- C7 (amended): URL and document ingestion never save the repository
and never touch `last_updated`; only the scrape-queue update saves, and
it does so exactly when the URL is new — also without touching
`last_updated`. -/
theorem persistence_behavior
    (st : EngineState) (url u2 filename : Str) (outcome : FetchOutcome)
    (pex : PdfExtract) (dex : DocxExtract) :
    ((scrapeUrl st url outcome).2.saves = st.saves
      ∧ (scrapeUrl st url outcome).2.kb.lastUpdated = st.kb.lastUpdated)
    ∧ ((processPdfDocument st pex filename).2.saves = st.saves
      ∧ (processPdfDocument st pex filename).2.kb.lastUpdated = st.kb.lastUpdated)
    ∧ ((processDocxDocument st dex filename).2.saves = st.saves
      ∧ (processDocxDocument st dex filename).2.kb.lastUpdated = st.kb.lastUpdated)
    ∧ (addUrlToScrapeList st u2).kb.lastUpdated = st.kb.lastUpdated
    ∧ (u2 ∉ st.kb.urlsToScrape → (addUrlToScrapeList st u2).saves = st.saves + 1)
    ∧ (u2 ∈ st.kb.urlsToScrape → addUrlToScrapeList st u2 = st) := by
  refine ⟨?_, ?_, ?_, ?_, fun hu => ?_, fun hu => ?_⟩
  · cases outcome with
    | failed => exact ⟨rfl, rfl⟩
    | ok status page =>
      by_cases h200 : status = 200
      · subst h200
        rw [scrapeUrl_ok_200]
        exact ⟨rfl, rfl⟩
      · rw [scrapeUrl, if_neg h200]
        exact ⟨rfl, rfl⟩
  · cases pex <;> exact ⟨rfl, rfl⟩
  · cases dex <;> exact ⟨rfl, rfl⟩
  · rw [addUrlToScrapeList]
    by_cases hu : u2 ∈ st.kb.urlsToScrape
    · rw [if_pos hu]
    · rw [if_neg hu]
      rfl
  · rw [addUrlToScrapeList, if_neg hu]
    rfl
  · rw [addUrlToScrapeList, if_pos hu]

/-- Witness for the amended C7 at concrete inputs (fresh and duplicate
queue URLs). -/
theorem persistence_behavior_witness :
    (addUrlToScrapeList emptyEngineState exampleUrl).saves
      = emptyEngineState.saves + 1
    ∧ addUrlToScrapeList
        (addUrlToScrapeList emptyEngineState exampleUrl) exampleUrl
      = addUrlToScrapeList emptyEngineState exampleUrl :=
  ⟨(persistence_behavior emptyEngineState exampleUrl exampleUrl []
      FetchOutcome.failed PdfExtract.unavailable DocxExtract.unavailable).2.2.2.2.1
      (by decide),
   (persistence_behavior (addUrlToScrapeList emptyEngineState exampleUrl)
      exampleUrl exampleUrl [] FetchOutcome.failed PdfExtract.unavailable
      DocxExtract.unavailable).2.2.2.2.2
      (by decide)⟩

/-- C10: every successful ingestion appends one source-log entry even
when the record key already exists (the key update does not grow the
record map), so re-ingesting a fresh URL twice leaves one URL record but
two new source entries, making the summary's total source count exceed
the record counts. -/
theorem source_log_append_duplicates
    (st : EngineState) (url : Str) (page : Page) (filename : Str)
    (ps : List (Except Str Str)) :
    (url ∈ keysOf st.kb.scrapedUrls →
      (scrapeUrl st url (FetchOutcome.ok 200 page)).2.kb.scrapedUrls.length
          = st.kb.scrapedUrls.length
        ∧ (scrapeUrl st url (FetchOutcome.ok 200 page)).2.kb.sources.length
          = st.kb.sources.length + 1)
    ∧ (filename ∈ keysOf st.kb.uploadedDocuments →
      (processPdfDocument st (PdfExtract.pages ps) filename).2.kb.uploadedDocuments.length
          = st.kb.uploadedDocuments.length
        ∧ (processPdfDocument st (PdfExtract.pages ps) filename).2.kb.sources.length
          = st.kb.sources.length + 1)
    ∧ (url ∉ keysOf st.kb.scrapedUrls →
        (scrapeUrl (scrapeUrl st url (FetchOutcome.ok 200 page)).2 url
            (FetchOutcome.ok 200 page)).2.kb.scrapedUrls.length
          = st.kb.scrapedUrls.length + 1
        ∧ (scrapeUrl (scrapeUrl st url (FetchOutcome.ok 200 page)).2 url
            (FetchOutcome.ok 200 page)).2.kb.sources.length
          = st.kb.sources.length + 2
        ∧ (getKnowledgeSummary (scrapeUrl (scrapeUrl st url (FetchOutcome.ok 200 page)).2
            url (FetchOutcome.ok 200 page)).2.kb).totalSources
          = st.kb.sources.length + 2) := by
  refine ⟨fun hu => ⟨?_, ?_⟩, fun hf => ⟨?_, ?_⟩, fun hu => ⟨?_, ?_, ?_⟩⟩
  · rw [scrapeUrl_ok_200]
    show (assocUpdate st.kb.scrapedUrls url (scrapeRecord url page)).length = _
    rw [length_assocUpdate, if_pos hu]
  · rw [scrapeUrl_ok_200]
    show (st.kb.sources ++ [_]).length = _
    rw [List.length_append]
    rfl
  · show (assocUpdate st.kb.uploadedDocuments filename _).length = _
    rw [length_assocUpdate, if_pos hf]
  · show (st.kb.sources ++ [_]).length = _
    rw [List.length_append]
    rfl
  · rw [scrapeUrl_ok_200, scrapeUrl_ok_200]
    show (assocUpdate (assocUpdate st.kb.scrapedUrls url (scrapeRecord url page))
        url (scrapeRecord url page)).length = _
    rw [length_assocUpdate, if_pos (keysOf_assocUpdate_mem _ _ _),
      length_assocUpdate, if_neg hu]
  · rw [scrapeUrl_ok_200, scrapeUrl_ok_200]
    show ((st.kb.sources ++ [_]) ++ [_]).length = _
    rw [List.length_append, List.length_append]
    rfl
  · rw [scrapeUrl_ok_200, scrapeUrl_ok_200]
    show ((st.kb.sources ++ [_]) ++ [_]).length = _
    rw [List.length_append, List.length_append]
    rfl

/-- Witness for C10: double-ingestion of a fresh URL from the empty
state yields one URL record, two source entries, and a summary whose
total source count exceeds the sum of record counts. -/
theorem source_log_append_duplicates_witness :
    (scrapeUrl (scrapeUrl emptyEngineState exampleUrl
          (FetchOutcome.ok 200 samplePage)).2 exampleUrl
        (FetchOutcome.ok 200 samplePage)).2.kb.scrapedUrls.length
      = emptyEngineState.kb.scrapedUrls.length + 1
    ∧ (getKnowledgeSummary (scrapeUrl (scrapeUrl emptyEngineState exampleUrl
          (FetchOutcome.ok 200 samplePage)).2 exampleUrl
        (FetchOutcome.ok 200 samplePage)).2.kb).totalSources
      = emptyEngineState.kb.sources.length + 2 := by
  have h := (source_log_append_duplicates emptyEngineState exampleUrl samplePage
    [] []).2.2 (by decide)
  exact ⟨h.1, h.2.2⟩

/-- C8: on an empty result set `get_context_for_query` returns the fixed
non-empty "no knowledge" sentinel; on a non-empty result set it emits
the header followed by each result's excerpt in ranked order, where a
URL excerpt carries at most 3 paragraphs, each a stored paragraph
containing the query case-insensitively, and a document excerpt carries
at most 5 sentences (split on `.`), each a stripped sentence whose
source sentence contains the query case-insensitively. -/
theorem context_assembly_bounds
    (kb : KnowledgeBase) (query source : Str) (c : UrlContent) (d : DocInfo) :
    (searchKnowledgeDefault kb query = [] →
      getContextForQuery kb query = noKnowledgeMessage)
    ∧ noKnowledgeMessage ≠ []
    ∧ (searchKnowledgeDefault kb query ≠ [] →
        getContextForQuery kb query
          = joinWith ("\n".data)
              ("Relevant information from STAFFVIRTUAL knowledge base:".data
                :: (searchKnowledgeDefault kb query).flatMap (resultParts query)))
    ∧ ((relParagraphs query c).take 3).length ≤ 3
    ∧ (∀ p ∈ (relParagraphs query c).take 3,
        p ∈ c.paragraphs ∧ isSubstring (lowerStr query) (lowerStr p) = true)
    ∧ urlResultParts query source c
        = (["\nFrom ".data ++ source ++ ":".data, "Title: ".data ++ c.title]
            ++ (if c.metaDescription.isEmpty then []
                else ["Description: ".data ++ c.metaDescription]))
          ++ (if (relParagraphs query c).isEmpty then []
              else "Relevant content:".data :: (relParagraphs query c).take 3)
    ∧ ((relSentences query d.content).take 5).length ≤ 5
    ∧ (∀ s ∈ (relSentences query d.content).take 5,
        ∃ s0 ∈ splitOnC '.' d.content,
          s = stripStr s0 ∧ isSubstring (lowerStr query) (lowerStr s0) = true)
    ∧ docResultParts query source d
        = ["\nFrom document ".data ++ source ++ ":".data]
          ++ (if (relSentences query d.content).isEmpty then []
              else "Relevant content:".data :: (relSentences query d.content).take 5) := by
  refine ⟨fun he => ?_, List.cons_ne_nil _ _, fun hne => ?_, List.length_take_le _ _,
    fun p hp => ?_, rfl, List.length_take_le _ _, fun s hs => ?_, rfl⟩
  · rw [getContextForQuery, he]
    rfl
  · rw [getContextForQuery]
    rw [if_neg (by simp [List.isEmpty_iff, hne])]
  · have hp2 := List.mem_of_mem_take hp
    rw [relParagraphs] at hp2
    have := List.mem_filter.mp hp2
    exact ⟨this.1, this.2⟩
  · have hs2 := List.mem_of_mem_take hs
    rw [relSentences] at hs2
    obtain ⟨s0, hs0, hstrip⟩ := List.mem_map.mp hs2
    have := List.mem_filter.mp hs0
    exact ⟨s0, this.1, hstrip.symm, this.2⟩

/-- Witness for C8: the empty knowledge base yields the sentinel, and
the bounds instantiated on the spec-example records. -/
theorem context_assembly_bounds_witness :
    getContextForQuery defaultKnowledgeBase ("q".data) = noKnowledgeMessage
    ∧ getContextForQuery kbTwoDocs ("alpha".data)
        = joinWith ("\n".data)
            ("Relevant information from STAFFVIRTUAL knowledge base:".data
              :: (searchKnowledgeDefault kbTwoDocs ("alpha".data)).flatMap
                  (resultParts ("alpha".data))) :=
  ⟨(context_assembly_bounds defaultKnowledgeBase ("q".data) [] 
      ⟨[], [], [], [], [], [], []⟩ sampleDocA).1 (by decide),
   (context_assembly_bounds kbTwoDocs ("alpha".data) []
      ⟨[], [], [], [], [], [], []⟩ sampleDocA).2.2.1 (by decide)⟩
